import Mathlib

/-!
Shallow embedding of src/lib/utils/device/api.ts from balena-cli: the device
supervisor HTTP client (endpoint registry, request dispatcher, retry wrapper
and the DeviceAPI facade), together with theorems checking the specification
claims about it.
-/

/-- JSON-like values, as produced by the HTTP layer when json parsing is
requested. Objects are association lists of fields. -/
inductive JsonValue : Type where
  | null : JsonValue
  | bool : Bool → JsonValue
  | num : Int → JsonValue
  | str : String → JsonValue
  | obj : List (String × JsonValue) → JsonValue

/-- One HTTP response as seen by doRequest: status code and (parsed) body. -/
structure Response : Type where
  statusCode : Nat
  body : JsonValue

/-- Outcome of one HTTP round trip: a response, or a socket-level failure. -/
inductive TransportOutcome : Type where
  | ok : Response → TransportOutcome
  | transportError : String → TransportOutcome

/-- Error classes used by api.ts from the errors module (that module itself
is not under src/), modelled as a tagged variant per the spec error taxonomy:
BadRequest, ServiceUnavailable, Generic. Each carries the optional message
value its constructor was called with. -/
inductive APIError : Type where
  | BadRequestDeviceAPIError : Option JsonValue → APIError
  | ServiceUnavailableAPIError : Option JsonValue → APIError
  | DeviceAPIError : Option JsonValue → APIError

/-- Everything a dispatched request can fail with: a typed API error, a
transport-level rejection, or a JavaScript TypeError from reading a property
of undefined or null. -/
inductive ReqError : Type where
  | api : APIError → ReqError
  | transport : String → ReqError
  | jsTypeError : ReqError

/-- The request options each facade method passes to sendRequest
(api.ts builds these as object literals per method). -/
structure RequestOpts : Type where
  method : String
  url : String
  json : Bool
  body : Option JsonValue
  qs : List (String × String)

/-- Endpoint registry keys (the deviceEndpoints object of api.ts). -/
inductive DeviceAction : Type where
  | setTargetState : DeviceAction
  | getTargetState : DeviceAction
  | getDeviceInformation : DeviceAction
  | logs : DeviceAction
  | ping : DeviceAction
  | version : DeviceAction
  | status : DeviceAction
  | containerId : DeviceAction

/-- deviceEndpoints from api.ts: logical action to relative path. -/
def deviceEndpoints : DeviceAction → String
  | .setTargetState => "v2/local/target-state"
  | .getTargetState => "v2/local/target-state"
  | .getDeviceInformation => "v2/local/device-info"
  | .logs => "v2/local/logs"
  | .ping => "ping"
  | .version => "v2/version"
  | .status => "v2/state/status"
  | .containerId => "v2/containerId"

/-- Default supervisor port from the DeviceAPI constructor. -/
def defaultPort : Nat := 48484

/-- The deviceAddress field set in the DeviceAPI constructor. -/
def mkDeviceAddress (addr : String) (port : Nat) : String :=
  "http://" ++ addr ++ ":" ++ toString port ++ "/"

/-- DeviceAPI.getUrlForAction. -/
def getUrlForAction (deviceAddress : String) (action : DeviceAction) : String :=
  deviceAddress ++ deviceEndpoints action

/-- JavaScript property read on a possibly-undefined parsed body: reading a
property of undefined or null throws a TypeError; an object yields the field
value (or undefined when absent); other primitives yield undefined. -/
def jsGet (body : Option JsonValue) (k : String) : Except ReqError (Option JsonValue) :=
  match body with
  | none => .error .jsTypeError
  | some .null => .error .jsTypeError
  | some (.obj fields) => .ok (fields.lookup k)
  | some _ => .ok none

/-- The bodyError computation at the top of doRequest (api.ts:246-249):
a string body is used verbatim, any other body has its message property
read (which TypeErrors on a null body, like the source would). -/
def bodyErrorE (body : JsonValue) : Except ReqError (Option JsonValue) :=
  match body with
  | .str s => .ok (some (.str s))
  | b => jsGet (some b) "message"

/-- The inner doRequest closure of DeviceAPI.sendRequest (api.ts:243-260).
Note that the default branch of the switch constructs
new DeviceAPIError(bodyError) WITHOUT throwing it, so for any status code
outside 200, 400 and 503 the promise resolves successfully with undefined
(here: Except.ok none). -/
def doRequest (t : TransportOutcome) : Except ReqError (Option JsonValue) :=
  match t with
  | .transportError m => .error (.transport m)
  | .ok r =>
    match bodyErrorE r.body with
    | .error e => .error e
    | .ok be =>
      if r.statusCode = 200 then .ok (some r.body)
      else if r.statusCode = 400 then .error (.api (.BadRequestDeviceAPIError be))
      else if r.statusCode = 503 then .error (.api (.ServiceUnavailableAPIError be))
      else .ok none

/-- Modelled from the spec: retryability policy of the retry helper in
src/lib/utils/helpers.ts, which is not included under src/. Per spec
section 4.3 a BadRequest failure is never retried and every other failure
kind (ServiceUnavailable, Generic, transport) is. -/
def retryable : ReqError → Bool
  | .api (.BadRequestDeviceAPIError _) => false
  | _ => true

/-- Modelled from the spec: the loop of the retry helper of
src/lib/utils/helpers.ts (imported by api.ts as retry), which is not included
under src/. Per spec section 4.3: run the operation; success returns at once;
a non-retryable failure is surfaced at once; a retryable failure waits the
delay and retries while attempts remain; after the attempt budget is spent
the last observed error is returned unchanged. fuel counts the retries still
allowed and i is the zero-based index of the current attempt. Besides the
result the function returns the total number of attempts made and the list of
waits performed (the spec leaves the delay growth policy open, requiring only
monotone non-decreasing, so it is modelled as the constant initial delay).
Logging a label per attempt is a side effect that is not modelled. -/
def retryAux {α : Type} (op : Nat → Except ReqError α) (delayMs : Nat) :
    Nat → Nat → Except ReqError α × Nat × List Nat
  | 0, i =>
    match op i with
    | .ok v => (.ok v, i + 1, [])
    | .error e => (.error e, i + 1, [])
  | f + 1, i =>
    match op i with
    | .ok v => (.ok v, i + 1, [])
    | .error e =>
      if retryable e then
        let r := retryAux op delayMs f (i + 1)
        (r.1, r.2.1, delayMs :: r.2.2)
      else (.error e, i + 1, [])

/-- Modelled from the spec: entry point of the retry helper; maxAttempts is
the total attempt budget, so maxAttempts - 1 retries remain after the first
attempt. -/
def runWithRetry {α : Type} (op : Nat → Except ReqError α) (delayMs maxAttempts : Nat) :
    Except ReqError α × Nat × List Nat :=
  retryAux op delayMs (maxAttempts - 1) 0

/-- The literal initialDelayMs value 2000 passed to retry at api.ts:264. -/
def sendRequestInitialDelayMs : Nat := 2000

/-- The literal maxAttempts value 6 passed to retry at api.ts:265. -/
def sendRequestMaxAttempts : Nat := 6

/-- A server environment: the outcome the device supervisor produces for the
given request options on the given (zero-based) attempt. -/
abbrev Server : Type := RequestOpts → Nat → TransportOutcome

/-- DeviceAPI.sendRequest (api.ts:233-268): wraps doRequest in the retry
helper with the hard-coded options initialDelayMs 2000 and maxAttempts 6.
The debug log line and the label string are side effects not modelled.
Returns the settled result plus the attempt count and the waits performed by
the retry loop. -/
def sendRequest (opts : RequestOpts) (server : Server) :
    Except ReqError (Option JsonValue) × Nat × List Nat :=
  runWithRetry (fun i => doRequest (server opts i)) sendRequestInitialDelayMs sendRequestMaxAttempts

/-- Request options built by DeviceAPI.setTargetState. -/
def setTargetStateOpts (deviceAddress : String) (state : JsonValue) : RequestOpts :=
  { method := "POST", url := getUrlForAction deviceAddress .setTargetState,
    json := true, body := some state, qs := [] }

/-- DeviceAPI.setTargetState (api.ts:84-95). Declared Promise<void> in the
source, but the method returns the sendRequest result directly, so at runtime
the promise resolves with the response body. -/
def setTargetState (deviceAddress : String) (state : JsonValue) (server : Server) :
    Except ReqError (Option JsonValue) × Nat × List Nat :=
  sendRequest (setTargetStateOpts deviceAddress state) server

/-- Request options built by DeviceAPI.getTargetState. -/
def getTargetStateOpts (deviceAddress : String) : RequestOpts :=
  { method := "GET", url := getUrlForAction deviceAddress .getTargetState,
    json := true, body := none, qs := [] }

/-- DeviceAPI.getTargetState (api.ts:97-110): sendRequest, then body.state. -/
def getTargetState (deviceAddress : String) (server : Server) :
    Except ReqError (Option JsonValue) × Nat × List Nat :=
  let r := sendRequest (getTargetStateOpts deviceAddress) server
  (r.1.bind (fun body => jsGet body "state"), r.2)

/-- Request options built by DeviceAPI.getDeviceInformation. -/
def getDeviceInformationOpts (deviceAddress : String) : RequestOpts :=
  { method := "GET", url := getUrlForAction deviceAddress .getDeviceInformation,
    json := true, body := none, qs := [] }

/-- DeviceAPI.getDeviceInformation (api.ts:112-125): sendRequest, then
body.info. -/
def getDeviceInformation (deviceAddress : String) (server : Server) :
    Except ReqError (Option JsonValue) × Nat × List Nat :=
  let r := sendRequest (getDeviceInformationOpts deviceAddress) server
  (r.1.bind (fun body => jsGet body "info"), r.2)

/-- The guard repeated in getContainerId, getVersion and getStatus:
if body.status is not the string success, throw new DeviceAPIError(msg),
otherwise continue with the given computation. -/
def requireSuccess {α : Type} (body : Option JsonValue) (msg : String)
    (onSuccess : Except ReqError α) : Except ReqError α :=
  match jsGet body "status" with
  | .error e => .error e
  | .ok (some (.str s)) =>
    if s = "success" then onSuccess
    else .error (.api (.DeviceAPIError (some (.str msg))))
  | .ok _ => .error (.api (.DeviceAPIError (some (.str msg))))

/-- Request options built by DeviceAPI.getContainerId (serviceName is sent as
a query parameter). -/
def getContainerIdOpts (deviceAddress serviceName : String) : RequestOpts :=
  { method := "GET", url := getUrlForAction deviceAddress .containerId,
    json := true, body := none, qs := [("serviceName", serviceName)] }

/-- DeviceAPI.getContainerId (api.ts:127-148): sendRequest, status guard,
then body.containerId. -/
def getContainerId (deviceAddress serviceName : String) (server : Server) :
    Except ReqError (Option JsonValue) × Nat × List Nat :=
  let r := sendRequest (getContainerIdOpts deviceAddress serviceName) server
  (r.1.bind (fun body =>
    requireSuccess body "Non-successful response from supervisor containerId endpoint"
      (jsGet body "containerId")), r.2)

/-- Request options built by DeviceAPI.ping (no json flag). -/
def pingOpts (deviceAddress : String) : RequestOpts :=
  { method := "GET", url := getUrlForAction deviceAddress .ping,
    json := false, body := none, qs := [] }

/-- DeviceAPI.ping (api.ts:150-160): raw sendRequest result. -/
def ping (deviceAddress : String) (server : Server) :
    Except ReqError (Option JsonValue) × Nat × List Nat :=
  sendRequest (pingOpts deviceAddress) server

/-- Request options built by DeviceAPI.getVersion. -/
def getVersionOpts (deviceAddress : String) : RequestOpts :=
  { method := "GET", url := getUrlForAction deviceAddress .version,
    json := true, body := none, qs := [] }

/-- DeviceAPI.getVersion (api.ts:162-178): sendRequest, status guard, then
body.version. (The source passes no logger here; logging is a side effect
that is not modelled in any case.) -/
def getVersion (deviceAddress : String) (server : Server) :
    Except ReqError (Option JsonValue) × Nat × List Nat :=
  let r := sendRequest (getVersionOpts deviceAddress) server
  (r.1.bind (fun body =>
    requireSuccess body "Non-successful response from supervisor version endpoint"
      (jsGet body "version")), r.2)

/-- The lodash omit call in getStatus: a fresh object holding every field of
the body except k. Non-object bodies cannot reach this call in getStatus (the
status guard rejects them first) and are mapped to the empty object. -/
def jsOmit (body : Option JsonValue) (k : String) : Option JsonValue :=
  match body with
  | some (.obj fields) => some (.obj (fields.filter (fun p => p.1 != k)))
  | _ => some (.obj [])

/-- Request options built by DeviceAPI.getStatus. -/
def getStatusOpts (deviceAddress : String) : RequestOpts :=
  { method := "GET", url := getUrlForAction deviceAddress .status,
    json := true, body := none, qs := [] }

/-- DeviceAPI.getStatus (api.ts:180-196): sendRequest, status guard, then
omit(body, status). -/
def getStatus (deviceAddress : String) (server : Server) :
    Except ReqError (Option JsonValue) × Nat × List Nat :=
  let r := sendRequest (getStatusOpts deviceAddress) server
  (r.1.bind (fun body =>
    requireSuccess body "Non-successful response from supervisor status endpoint"
      (.ok (jsOmit body "status"))), r.2)

/-- DeviceAPI.getLogStream (api.ts:198-225): resolves the logs URL and issues
one direct sdk.request.stream call, not wrapped in the retry helper. The
second component counts the HTTP requests issued: always exactly one. -/
def getLogStream {α : Type} (deviceAddress : String) (streamSend : String → α) : α × Nat :=
  (streamSend (getUrlForAction deviceAddress .logs), 1)

/-- The predicate of claim C4 on failure kinds: an HTTP 503
(ServiceUnavailable) failure or a transport failure. -/
def retryableKind (e : ReqError) : Prop :=
  (∃ m, e = .api (.ServiceUnavailableAPIError m)) ∨ (∃ m, e = .transport m)

/-- With no fuel left the retry loop returns the outcome of the current
attempt as is, after exactly one more attempt and no wait. -/
lemma retryAux_zero {α : Type} (op : Nat → Except ReqError α) (d i : Nat) :
    retryAux op d 0 i = (op i, i + 1, []) := by
  cases hop : op i <;> simp [retryAux, hop]

/-- A successful attempt stops the retry loop at once, whatever the fuel. -/
lemma retryAux_ok {α : Type} (op : Nat → Except ReqError α) (d fuel i : Nat) (v : α)
    (h : op i = .ok v) : retryAux op d fuel i = (.ok v, i + 1, []) := by
  cases fuel <;> simp [retryAux, h]

/-- A non-retryable failure stops the retry loop at once, whatever the fuel. -/
lemma retryAux_stop {α : Type} (op : Nat → Except ReqError α) (d fuel i : Nat) (e : ReqError)
    (h : op i = .error e) (hr : retryable e = false) :
    retryAux op d fuel i = (.error e, i + 1, []) := by
  cases fuel <;> simp [retryAux, h, hr]

/-- A retryable failure with fuel left waits once and moves to the next
attempt. -/
lemma retryAux_step {α : Type} (op : Nat → Except ReqError α) (d f i : Nat) (e : ReqError)
    (h : op i = .error e) (hr : retryable e = true) :
    retryAux op d (f + 1) i
      = ((retryAux op d f (i + 1)).1, (retryAux op d f (i + 1)).2.1,
         d :: (retryAux op d f (i + 1)).2.2) := by
  simp [retryAux, h, hr]

/-- The retry loop makes at most fuel + 1 attempts starting from index i. -/
lemma retryAux_attempts_le {α : Type} (op : Nat → Except ReqError α) (d : Nat) :
    ∀ fuel i, (retryAux op d fuel i).2.1 ≤ i + fuel + 1 := by
  intro fuel
  induction fuel with
  | zero =>
    intro i
    rw [retryAux_zero]
  | succ f ih =>
    intro i
    cases hop : op i with
    | ok v =>
      rw [retryAux_ok op d (f + 1) i v hop]
      show i + 1 ≤ i + (f + 1) + 1
      omega
    | error e =>
      cases hr : retryable e with
      | false =>
        rw [retryAux_stop op d (f + 1) i e hop hr]
        show i + 1 ≤ i + (f + 1) + 1
        omega
      | true =>
        rw [retryAux_step op d f i e hop hr]
        have := ih (i + 1)
        show (retryAux op d f (i + 1)).2.1 ≤ i + (f + 1) + 1
        omega

/-- Every wait performed by the retry loop equals the configured delay. -/
lemma retryAux_waits_all {α : Type} (op : Nat → Except ReqError α) (d : Nat) :
    ∀ fuel i, ((retryAux op d fuel i).2.2).all (fun w => w == d) = true := by
  intro fuel
  induction fuel with
  | zero =>
    intro i
    rw [retryAux_zero]
    rfl
  | succ f ih =>
    intro i
    cases hop : op i with
    | ok v =>
      rw [retryAux_ok op d (f + 1) i v hop]
      rfl
    | error e =>
      cases hr : retryable e with
      | false =>
        rw [retryAux_stop op d (f + 1) i e hop hr]
        rfl
      | true =>
        rw [retryAux_step op d f i e hop hr]
        show ((d :: (retryAux op d f (i + 1)).2.2).all (fun w => w == d)) = true
        simp [ih (i + 1)]

/-- When every attempt in the budget fails retryably, the loop spends the
whole budget and returns the last failure unchanged. -/
lemma retryAux_all_fail {α : Type} (op : Nat → Except ReqError α) (d : Nat) :
    ∀ fuel i, (∀ k, k ≤ fuel → ∃ e, op (i + k) = .error e ∧ retryable e = true) →
    (retryAux op d fuel i).1 = op (i + fuel) ∧ (retryAux op d fuel i).2.1 = i + fuel + 1 := by
  intro fuel
  induction fuel with
  | zero =>
    intro i _
    rw [retryAux_zero]
    constructor
    · show op i = op (i + 0)
      rw [Nat.add_zero]
    · show i + 1 = i + 0 + 1
      omega
  | succ f ih =>
    intro i h
    obtain ⟨e, he, hr⟩ := h 0 (by omega)
    rw [Nat.add_zero] at he
    have h' : ∀ k, k ≤ f → ∃ e, op (i + 1 + k) = .error e ∧ retryable e = true := by
      intro k hk
      obtain ⟨e', he', hr'⟩ := h (k + 1) (by omega)
      refine ⟨e', ?_, hr'⟩
      rw [show i + 1 + k = i + (k + 1) by omega]
      exact he'
    have hih := ih (i + 1) h'
    rw [retryAux_step op d f i e he hr]
    constructor
    · show (retryAux op d f (i + 1)).1 = op (i + (f + 1))
      rw [hih.1]
      congr 1
      omega
    · show (retryAux op d f (i + 1)).2.1 = i + (f + 1) + 1
      rw [hih.2]
      omega

/-- A first success at attempt index j stops the loop at once: the value is
returned after exactly j + 1 attempts. -/
lemma retryAux_first_success {α : Type} (op : Nat → Except ReqError α) (d : Nat) :
    ∀ j fuel i v, (∀ k, k < j → ∃ e, op (i + k) = .error e ∧ retryable e = true) →
    j ≤ fuel → op (i + j) = .ok v →
    (retryAux op d fuel i).1 = .ok v ∧ (retryAux op d fuel i).2.1 = i + j + 1 := by
  intro j
  induction j with
  | zero =>
    intro fuel i v _ _ hok
    rw [Nat.add_zero] at hok
    rw [retryAux_ok op d fuel i v hok]
    refine ⟨rfl, ?_⟩
    show i + 1 = i + 0 + 1
    omega
  | succ n ih =>
    intro fuel i v hfail hle hok
    obtain ⟨e, he, hr⟩ := hfail 0 (by omega)
    rw [Nat.add_zero] at he
    obtain ⟨f, rfl⟩ : ∃ f, fuel = f + 1 := ⟨fuel - 1, by omega⟩
    have hfail' : ∀ k, k < n → ∃ e, op (i + 1 + k) = .error e ∧ retryable e = true := by
      intro k hk
      obtain ⟨e', he', hr'⟩ := hfail (k + 1) (by omega)
      refine ⟨e', ?_, hr'⟩
      rw [show i + 1 + k = i + (k + 1) by omega]
      exact he'
    have hok' : op (i + 1 + n) = .ok v := by
      rw [show i + 1 + n = i + (n + 1) by omega]
      exact hok
    have hih := ih f (i + 1) v hfail' (by omega) hok'
    rw [retryAux_step op d f i e he hr]
    refine ⟨hih.1, ?_⟩
    show (retryAux op d f (i + 1)).2.1 = i + (n + 1) + 1
    rw [hih.2]
    omega

/-- A ServiceUnavailable or transport failure is retryable. -/
lemma retryableKind_retryable {e : ReqError} (h : retryableKind e) : retryable e = true := by
  rcases h with ⟨m, rfl⟩ | ⟨m, rfl⟩ <;> rfl

/-- Filtering a key out of an association list makes that key unfindable. -/
lemma lookup_filter_self (k0 : String) :
    ∀ l : List (String × JsonValue), (l.filter (fun p => p.1 != k0)).lookup k0 = none := by
  intro l
  induction l with
  | nil => rfl
  | cons hd tl ih =>
    by_cases h : hd.1 = k0
    · simp [List.filter_cons, h, ih]
    · simp only [List.filter_cons, decide_eq_true_eq]
      rw [if_pos (by simp [bne_iff_ne, h])]
      rw [List.lookup_cons]
      rw [show (k0 == hd.1) = false by simp [Ne.symm h]]
      exact ih

/-- Filtering one key out of an association list leaves every other key
bound exactly as before. -/
lemma lookup_filter_ne (k k0 : String) (hk : k ≠ k0) :
    ∀ l : List (String × JsonValue),
    (l.filter (fun p => p.1 != k0)).lookup k = l.lookup k := by
  intro l
  induction l with
  | nil => rfl
  | cons hd tl ih =>
    by_cases h : hd.1 = k0
    · have h2 : (k == hd.1) = false := by
        simp [h, hk]
      rw [List.filter_cons]
      rw [if_neg (by simp [h])]
      rw [List.lookup_cons, h2, ih]
    · rw [List.filter_cons]
      rw [if_pos (by simp [bne_iff_ne, h])]
      rw [List.lookup_cons, List.lookup_cons]
      cases hkh : (k == hd.1) with
      | true => rfl
      | false => exact ih

/-- A 200 response on the first attempt makes sendRequest resolve with the
body after exactly one attempt and no waits, provided the bodyError
computation at the top of doRequest does not itself throw. -/
lemma sendRequest_200 (opts : RequestOpts) (server : Server) (b : JsonValue)
    (be : Option JsonValue) (hb : bodyErrorE b = .ok be)
    (h : server opts 0 = .ok ⟨200, b⟩) :
    sendRequest opts server = (.ok (some b), 1, []) := by
  have hop : doRequest (server opts 0) = .ok (some b) := by
    rw [h]
    simp [doRequest, hb]
  unfold sendRequest runWithRetry
  exact retryAux_ok _ _ _ _ _ hop

/-- A BadRequest failure on the first attempt is surfaced by sendRequest at
once: one attempt, no waits, the error unchanged. -/
lemma sendRequest_badRequest (opts : RequestOpts) (server : Server) (m : Option JsonValue)
    (h : doRequest (server opts 0) = .error (.api (.BadRequestDeviceAPIError m))) :
    sendRequest opts server = (.error (.api (.BadRequestDeviceAPIError m)), 1, []) := by
  unfold sendRequest runWithRetry
  exact retryAux_stop _ _ _ _ _ h rfl

/-- The status guard throws the Generic DeviceAPIError whenever the status
field of an object body is anything but the string success. -/
lemma requireSuccess_fails {α : Type} (fields : List (String × JsonValue)) (msg : String)
    (onS : Except ReqError α)
    (hns : ∀ s, fields.lookup "status" = some (JsonValue.str s) → s ≠ "success") :
    requireSuccess (some (.obj fields)) msg onS
      = .error (.api (.DeviceAPIError (some (.str msg)))) := by
  unfold requireSuccess
  simp only [jsGet]
  cases hl : fields.lookup "status" with
  | none => rfl
  | some v =>
    cases v with
    | str s =>
      have := hns s hl
      simp [this]
    | null => rfl
    | bool b => rfl
    | num n => rfl
    | obj fs => rfl

/-- The status guard passes through when the status field is the string
success. -/
lemma requireSuccess_ok {α : Type} (fields : List (String × JsonValue)) (msg : String)
    (onS : Except ReqError α)
    (hs : fields.lookup "status" = some (JsonValue.str "success")) :
    requireSuccess (some (.obj fields)) msg onS = onS := by
  unfold requireSuccess
  simp only [jsGet, hs]
  exact if_pos trivial

/-- sendRequest never makes more than the hard-coded six attempts. -/
lemma sendRequest_attempts_le (opts : RequestOpts) (server : Server) :
    (sendRequest opts server).2.1 ≤ 6 := by
  have := retryAux_attempts_le (fun i => doRequest (server opts i)) sendRequestInitialDelayMs 5 0
  simpa [sendRequest, runWithRetry, sendRequestMaxAttempts] using this

/-- Every wait sendRequest performs is the hard-coded 2000 ms delay. -/
lemma sendRequest_waits_all (opts : RequestOpts) (server : Server) :
    ((sendRequest opts server).2.2).all (fun w => w == 2000) = true := by
  have := retryAux_waits_all (fun i => doRequest (server opts i)) sendRequestInitialDelayMs 5 0
  simpa [sendRequest, runWithRetry, sendRequestMaxAttempts, sendRequestInitialDelayMs] using this

/-- C1: the claim says the dispatcher succeeds exactly on HTTP 200 and that
any status outside 200, 400 and 503 yields a failure rather than a
successful resolution with an undefined value. The code violates this: the
default branch of doRequest constructs new DeviceAPIError(bodyError) without
throwing it, so 404, 500 and 502 responses all resolve successfully with
undefined (here Except.ok none) instead of failing. -/
theorem doRequest_unexpected_status_is_silent_success :
    doRequest (.ok ⟨404, .obj []⟩) = .ok none ∧
    doRequest (.ok ⟨500, .obj [("message", .str "boom")]⟩) = .ok none ∧
    doRequest (.ok ⟨502, .str "bad gateway"⟩) = .ok none ∧
    doRequest (.ok ⟨200, .str "pong"⟩) = .ok (some (.str "pong")) := ⟨rfl, rfl, rfl, rfl⟩

/-- C2: doRequest classifies HTTP 400 as BadRequest and HTTP 503 as
ServiceUnavailable, extracting the message by the same rule in both cases: a
string body is used verbatim, otherwise the message field of the body is
used. -/
theorem doRequest_400_503_classification :
    (∀ s : String, doRequest (.ok ⟨400, .str s⟩)
        = .error (.api (.BadRequestDeviceAPIError (some (.str s))))) ∧
    (∀ fields : List (String × JsonValue), doRequest (.ok ⟨400, .obj fields⟩)
        = .error (.api (.BadRequestDeviceAPIError (fields.lookup "message")))) ∧
    (∀ s : String, doRequest (.ok ⟨503, .str s⟩)
        = .error (.api (.ServiceUnavailableAPIError (some (.str s))))) ∧
    (∀ fields : List (String × JsonValue), doRequest (.ok ⟨503, .obj fields⟩)
        = .error (.api (.ServiceUnavailableAPIError (fields.lookup "message")))) :=
  ⟨fun _ => rfl, fun _ => rfl, fun _ => rfl, fun _ => rfl⟩

/-- C3: an attempt that fails with BadRequest is never retried: the error is
the final result after exactly one attempt whatever maxAttempts is, and in
particular sendRequest surfaces a first-attempt BadRequest at once. -/
theorem badRequest_never_retried :
    (∀ (α : Type) (op : Nat → Except ReqError α) (delayMs maxAttempts : Nat)
       (m : Option JsonValue),
       op 0 = .error (.api (.BadRequestDeviceAPIError m)) →
       runWithRetry op delayMs maxAttempts
         = (.error (.api (.BadRequestDeviceAPIError m)), 1, [])) ∧
    (∀ (opts : RequestOpts) (server : Server) (m : Option JsonValue),
       doRequest (server opts 0) = .error (.api (.BadRequestDeviceAPIError m)) →
       sendRequest opts server
         = (.error (.api (.BadRequestDeviceAPIError m)), 1, [])) := by
  constructor
  · intro α op delayMs maxAttempts m h
    unfold runWithRetry
    exact retryAux_stop _ _ _ _ _ h rfl
  · intro opts server m h
    exact sendRequest_badRequest opts server m h

/-- C3 witness: a first attempt answered with BadRequest is surfaced as the
final result after a single attempt even though six attempts are allowed. -/
theorem badRequest_never_retried_witness :
    runWithRetry (fun _ => (.error (.api (.BadRequestDeviceAPIError (some (.str "bad"))))
        : Except ReqError (Option JsonValue))) 2000 6
      = (.error (.api (.BadRequestDeviceAPIError (some (.str "bad")))), 1, []) :=
  badRequest_never_retried.1 (Option JsonValue) _ 2000 6 (some (.str "bad")) rfl

/-- C4: when every attempt fails with ServiceUnavailable or a transport
error, the retry wrapper makes exactly the hard-coded six attempts and then
returns the last observed error unchanged (no synthetic error replaces it);
and a successful attempt stops the loop at once with the value. -/
theorem retry_exhausts_and_shortcircuits :
    (∀ (α : Type) (op : Nat → Except ReqError α),
       (∀ i, i < sendRequestMaxAttempts → ∃ e, op i = .error e ∧ retryableKind e) →
       (runWithRetry op sendRequestInitialDelayMs sendRequestMaxAttempts).2.1
           = sendRequestMaxAttempts ∧
       (runWithRetry op sendRequestInitialDelayMs sendRequestMaxAttempts).1
           = op (sendRequestMaxAttempts - 1)) ∧
    (∀ (α : Type) (op : Nat → Except ReqError α) (j : Nat) (v : α),
       (∀ i, i < j → ∃ e, op i = .error e ∧ retryable e = true) →
       j < sendRequestMaxAttempts → op j = .ok v →
       (runWithRetry op sendRequestInitialDelayMs sendRequestMaxAttempts).1 = .ok v ∧
       (runWithRetry op sendRequestInitialDelayMs sendRequestMaxAttempts).2.1 = j + 1) := by
  constructor
  · intro α op h
    have hall : ∀ k, k ≤ 5 → ∃ e, op (0 + k) = .error e ∧ retryable e = true := by
      intro k hk
      obtain ⟨e, he, hkind⟩ := h k (show k < sendRequestMaxAttempts by
        simp only [sendRequestMaxAttempts]; omega)
      exact ⟨e, by simpa using he, retryableKind_retryable hkind⟩
    have hmain := retryAux_all_fail op sendRequestInitialDelayMs 5 0 hall
    unfold runWithRetry sendRequestMaxAttempts
    exact ⟨hmain.2, hmain.1⟩
  · intro α op j v hfail hj hok
    have hfail' : ∀ k, k < j → ∃ e, op (0 + k) = .error e ∧ retryable e = true := by
      intro k hk
      obtain ⟨e, he, hr⟩ := hfail k hk
      exact ⟨e, by simpa using he, hr⟩
    have hok' : op (0 + j) = .ok v := by simpa using hok
    have hle : j ≤ 5 := by simp only [sendRequestMaxAttempts] at hj; omega
    have hmain := retryAux_first_success op sendRequestInitialDelayMs j 5 0 v hfail' hle hok'
    unfold runWithRetry sendRequestMaxAttempts
    refine ⟨hmain.1, ?_⟩
    rw [hmain.2]
    omega

/-- C4 witness: six attempts against a server that always fails at transport
level, and a single attempt against one that succeeds at once. -/
theorem retry_exhausts_and_shortcircuits_witness :
    (runWithRetry (fun _ => (.error (.transport "connection refused")
        : Except ReqError (Option JsonValue)))
        sendRequestInitialDelayMs sendRequestMaxAttempts).2.1 = sendRequestMaxAttempts ∧
    (runWithRetry (fun _ => (.ok none : Except ReqError (Option JsonValue)))
        sendRequestInitialDelayMs sendRequestMaxAttempts).2.1 = 1 := by
  constructor
  · exact (retry_exhausts_and_shortcircuits.1 (Option JsonValue)
      (fun _ => .error (.transport "connection refused"))
      (fun i _ => ⟨.transport "connection refused", rfl, Or.inr ⟨_, rfl⟩⟩)).1
  · exact (retry_exhausts_and_shortcircuits.2 (Option JsonValue)
      (fun _ => .ok none) 0 none (fun i hi => absurd hi (Nat.not_lt_zero i))
      (by decide) rfl).2

/-- C5: getContainerId, getVersion and getStatus each raise the Generic
DeviceAPIError when a 200 response carries an object body whose status field
is not the string success. -/
theorem getters_raise_generic_on_failed_status
    (addr serviceName : String) (server : Server) (fields : List (String × JsonValue))
    (hns : ∀ s, fields.lookup "status" = some (JsonValue.str s) → s ≠ "success") :
    (server (getContainerIdOpts addr serviceName) 0 = .ok ⟨200, .obj fields⟩ →
       (getContainerId addr serviceName server).1
         = .error (.api (.DeviceAPIError (some (.str
             "Non-successful response from supervisor containerId endpoint"))))) ∧
    (server (getVersionOpts addr) 0 = .ok ⟨200, .obj fields⟩ →
       (getVersion addr server).1
         = .error (.api (.DeviceAPIError (some (.str
             "Non-successful response from supervisor version endpoint"))))) ∧
    (server (getStatusOpts addr) 0 = .ok ⟨200, .obj fields⟩ →
       (getStatus addr server).1
         = .error (.api (.DeviceAPIError (some (.str
             "Non-successful response from supervisor status endpoint"))))) := by
  refine ⟨fun h => ?_, fun h => ?_, fun h => ?_⟩
  · have hs := sendRequest_200 (getContainerIdOpts addr serviceName) server (.obj fields)
      (fields.lookup "message") rfl h
    simp only [getContainerId, hs, Except.bind]
    exact requireSuccess_fails fields _ _ hns
  · have hs := sendRequest_200 (getVersionOpts addr) server (.obj fields)
      (fields.lookup "message") rfl h
    simp only [getVersion, hs, Except.bind]
    exact requireSuccess_fails fields _ _ hns
  · have hs := sendRequest_200 (getStatusOpts addr) server (.obj fields)
      (fields.lookup "message") rfl h
    simp only [getStatus, hs, Except.bind]
    exact requireSuccess_fails fields _ _ hns

/-- C5 witness: a server answering 200 with status failed makes
getContainerId raise the Generic DeviceAPIError. -/
theorem getters_raise_generic_on_failed_status_witness :
    (getContainerId (mkDeviceAddress "127.0.0.1" defaultPort) "main"
      (fun _ _ => .ok ⟨200, .obj [("status", JsonValue.str "failed")]⟩)).1
      = .error (.api (.DeviceAPIError (some (.str
          "Non-successful response from supervisor containerId endpoint")))) := by
  refine (getters_raise_generic_on_failed_status (mkDeviceAddress "127.0.0.1" defaultPort)
    "main" _ [("status", JsonValue.str "failed")] ?_).1 rfl
  intro s h hc
  have h' : some (JsonValue.str "failed") = some (JsonValue.str s) := h
  injection h' with h1
  injection h1 with h2
  rw [← h2] at hc
  exact absurd hc (by decide)

/-- C6 counterexample: against a server answering 200 with a non-empty JSON
body, setTargetState resolves with that body, not with a void or undefined
value, so the resolved value does carry response-body content. -/
theorem setTargetState_returns_body_counterexample :
    (setTargetState (mkDeviceAddress "127.0.0.1" defaultPort) (JsonValue.obj [])
      (fun _ _ => .ok ⟨200, JsonValue.obj [("ok", JsonValue.num 1)]⟩)).1
      = .ok (some (JsonValue.obj [("ok", JsonValue.num 1)])) ∧
    (setTargetState (mkDeviceAddress "127.0.0.1" defaultPort) (JsonValue.obj [])
      (fun _ _ => .ok ⟨200, JsonValue.obj [("ok", JsonValue.num 1)]⟩)).1
      ≠ .ok none := by
  refine ⟨rfl, fun h => ?_⟩
  have h' : (Except.ok (some (JsonValue.obj [("ok", JsonValue.num 1)]))
      : Except ReqError (Option JsonValue)) = .ok none := h
  injection h' with h1
  exact Option.noConfusion h1

/-- C6 amended: setTargetState performs a POST with the given state as the
JSON body; on failure it propagates the typed error; its declared return
type is void so callers see no body, but the underlying resolved value on a
200 success is the response body rather than a discarded undefined value. -/
theorem setTargetState_post_and_propagates (addr : String) (state : JsonValue) :
    (setTargetStateOpts addr state).method = "POST" ∧
    (setTargetStateOpts addr state).json = true ∧
    (setTargetStateOpts addr state).body = some state ∧
    (∀ (server : Server) (b : JsonValue) (be : Option JsonValue),
       bodyErrorE b = .ok be →
       server (setTargetStateOpts addr state) 0 = .ok ⟨200, b⟩ →
       (setTargetState addr state server).1 = .ok (some b)) ∧
    (∀ (server : Server) (m : Option JsonValue),
       doRequest (server (setTargetStateOpts addr state) 0)
           = .error (.api (.BadRequestDeviceAPIError m)) →
       (setTargetState addr state server).1
           = .error (.api (.BadRequestDeviceAPIError m))) := by
  refine ⟨rfl, rfl, rfl, ?_, ?_⟩
  · intro server b be hb h
    unfold setTargetState
    rw [sendRequest_200 (setTargetStateOpts addr state) server b be hb h]
  · intro server m h
    unfold setTargetState
    rw [sendRequest_badRequest (setTargetStateOpts addr state) server m h]

/-- C6 amended witness: a 200 response resolves with the body, and a 400
response propagates the BadRequest error unchanged. -/
theorem setTargetState_post_and_propagates_witness :
    (setTargetState (mkDeviceAddress "127.0.0.1" defaultPort) (JsonValue.obj [])
      (fun _ _ => .ok ⟨200, JsonValue.obj []⟩)).1 = .ok (some (JsonValue.obj [])) ∧
    (setTargetState (mkDeviceAddress "127.0.0.1" defaultPort) (JsonValue.obj [])
      (fun _ _ => .ok ⟨400, JsonValue.str "bad"⟩)).1
      = .error (.api (.BadRequestDeviceAPIError (some (.str "bad")))) := by
  constructor
  · exact (setTargetState_post_and_propagates (mkDeviceAddress "127.0.0.1" defaultPort)
      (JsonValue.obj [])).2.2.2.1 _ (JsonValue.obj []) none rfl rfl
  · exact (setTargetState_post_and_propagates (mkDeviceAddress "127.0.0.1" defaultPort)
      (JsonValue.obj [])).2.2.2.2 _ (some (.str "bad")) rfl

/-- C7: getTargetState returns exactly the state field of the JSON response
body, after a single attempt. -/
theorem getTargetState_extracts_state (addr : String) (server : Server)
    (fields : List (String × JsonValue))
    (h : server (getTargetStateOpts addr) 0 = .ok ⟨200, .obj fields⟩) :
    (getTargetState addr server).1 = .ok (fields.lookup "state") ∧
    (getTargetState addr server).2.1 = 1 := by
  have hs := sendRequest_200 (getTargetStateOpts addr) server (.obj fields)
    (fields.lookup "message") rfl h
  constructor
  · simp only [getTargetState, hs, Except.bind]
    rfl
  · simp only [getTargetState, hs]

/-- C7 witness: against a server returning a body whose state field is the
object with foo bound to 1, getTargetState returns exactly that object. -/
theorem getTargetState_extracts_state_witness :
    (getTargetState (mkDeviceAddress "127.0.0.1" defaultPort)
      (fun _ _ => .ok ⟨200, .obj [("state", .obj [("foo", .num 1)])]⟩)).1
      = .ok (some (.obj [("foo", .num 1)])) :=
  (getTargetState_extracts_state (mkDeviceAddress "127.0.0.1" defaultPort) _
    [("state", .obj [("foo", .num 1)])] rfl).1.trans rfl

/-- C8: for a 200 object body whose status field is the string success,
getStatus returns the body with exactly the status field removed: the status
key is gone and every other key is bound exactly as in the body. -/
theorem getStatus_omits_only_status (addr : String) (server : Server)
    (fields : List (String × JsonValue))
    (h200 : server (getStatusOpts addr) 0 = .ok ⟨200, .obj fields⟩)
    (hsucc : fields.lookup "status" = some (JsonValue.str "success")) :
    (getStatus addr server).1
        = .ok (some (.obj (fields.filter (fun p => p.1 != "status")))) ∧
    (fields.filter (fun p => p.1 != "status")).lookup "status" = none ∧
    (∀ k, k ≠ "status" →
       (fields.filter (fun p => p.1 != "status")).lookup k = fields.lookup k) := by
  have hs := sendRequest_200 (getStatusOpts addr) server (.obj fields)
    (fields.lookup "message") rfl h200
  refine ⟨?_, lookup_filter_self "status" fields,
    fun k hk => lookup_filter_ne k "status" hk fields⟩
  simp only [getStatus, hs, Except.bind]
  rw [requireSuccess_ok fields _ _ hsucc]
  rfl

/-- C8 witness: a concrete status body loses its status field and keeps its
appState field unchanged. -/
theorem getStatus_omits_only_status_witness :
    (getStatus (mkDeviceAddress "127.0.0.1" defaultPort)
      (fun _ _ => .ok ⟨200, .obj [("status", JsonValue.str "success"),
        ("appState", JsonValue.str "applied")]⟩)).1
      = .ok (some (.obj [("appState", JsonValue.str "applied")])) :=
  (getStatus_omits_only_status (mkDeviceAddress "127.0.0.1" defaultPort) _
    [("status", JsonValue.str "success"), ("appState", JsonValue.str "applied")]
    rfl rfl).1.trans rfl

/-- C9: getLogStream issues exactly one direct request to the logs endpoint
and returns whatever the stream call produces, with no retry wrapping: the
request count is one for every stream outcome, failures included. -/
theorem getLogStream_single_direct_request :
    ∀ (α : Type) (deviceAddress : String) (streamSend : String → α),
      (getLogStream deviceAddress streamSend).1
          = streamSend (deviceAddress ++ "v2/local/logs") ∧
      (getLogStream deviceAddress streamSend).2 = 1 :=
  fun _ _ _ => ⟨rfl, rfl⟩

/-- C10: the retry configuration is hard-coded in sendRequest, initial delay
2000 ms and at most six attempts, and every non-streaming facade operation
goes through that one helper: none of them can exceed six attempts, every
wait any of them performs is exactly 2000 ms, and no operation takes a
parameter that could change either bound. -/
theorem retry_config_hardcoded_and_uniform :
    sendRequestInitialDelayMs = 2000 ∧
    sendRequestMaxAttempts = 6 ∧
    (∀ (opts : RequestOpts) (server : Server),
       (sendRequest opts server).2.1 ≤ 6 ∧
       ((sendRequest opts server).2.2).all (fun w => w == 2000) = true) ∧
    (∀ (addr serviceName : String) (state : JsonValue) (server : Server),
       (setTargetState addr state server).2.1 ≤ 6 ∧
       (getTargetState addr server).2.1 ≤ 6 ∧
       (getDeviceInformation addr server).2.1 ≤ 6 ∧
       (getContainerId addr serviceName server).2.1 ≤ 6 ∧
       (ping addr server).2.1 ≤ 6 ∧
       (getVersion addr server).2.1 ≤ 6 ∧
       (getStatus addr server).2.1 ≤ 6) := by
  refine ⟨rfl, rfl, fun opts server => ⟨sendRequest_attempts_le opts server,
    sendRequest_waits_all opts server⟩, fun addr serviceName state server =>
    ⟨?_, ?_, ?_, ?_, ?_, ?_, ?_⟩⟩
  · exact sendRequest_attempts_le _ server
  · exact sendRequest_attempts_le _ server
  · exact sendRequest_attempts_le _ server
  · exact sendRequest_attempts_le _ server
  · exact sendRequest_attempts_le _ server
  · exact sendRequest_attempts_le _ server
  · exact sendRequest_attempts_le _ server
